import Mathlib

/-!
Shallow embedding of the Vulkan bootstrap module (src/state.rs) of the
repository: instance creation with optional validation layers, physical
device selection, queue-family resolution, logical-device creation and
ordered teardown.  Driver-supplied data (enumerated layers, physical
devices, queue families, surface formats and present modes) is modelled
as explicit values; native driver calls that matter to the claims are
recorded in a trace.  The compile-time constant ENABLE_VALIDATION_LAYERS
(cfg!(debug_assertions) in the source) is passed as an explicit Bool
parameter, since the source is compiled in both configurations.
-/

namespace Vulkan

/-- Names of the validation layers requested by the program:
VALIDATION_LAYERS in state.rs. -/
def VALIDATION_LAYERS : List String := ["VK_LAYER_KHRONOS_validation"]

/-- Names of the device extensions required by the program:
DEVICE_EXTENSIONS in state.rs (the swapchain extension). -/
def DEVICE_EXTENSIONS : List String := ["VK_KHR_swapchain"]

/-- One queue family of a physical device as the program observes it:
whether its queue flags contain GRAPHICS, and whether the surface-support
query for this family index and the fixed surface returns true. -/
structure QueueFamily where
  graphics : Bool
  present_support : Bool
deriving DecidableEq

/-- QueueFamilyIndices from state.rs. -/
structure QueueFamilyIndices where
  graphics_family : Option Nat
  present_family : Option Nat
deriving DecidableEq

/-- QueueFamilyIndices.is_complete from state.rs. -/
def QueueFamilyIndices.is_complete (q : QueueFamilyIndices) : Bool :=
  q.graphics_family.isSome && q.present_family.isSome

/-- A physical device as the program queries it through the driver:
its queue families, its enumerated device-extension names, and the
surface capabilities, formats and present modes for the fixed surface.
Formats and present modes are abstracted to opaque numbers, since the
program only tests the lists for emptiness. -/
structure PhysDevice where
  queue_families : List QueueFamily
  extension_names : List String
  capabilities : Nat
  formats : List Nat
  present_modes : List Nat
deriving DecidableEq

/-- SwapChainSupportDetails from state.rs. -/
structure SwapChainSupportDetails where
  capabilities : Nat
  formats : List Nat
  present_modes : List Nat
deriving DecidableEq

/-- VulkanState.query_swap_chain_support from state.rs: the three surface
queries for a (device, surface) pair, bundled. -/
def query_swap_chain_support (d : PhysDevice) : SwapChainSupportDetails :=
  { capabilities := d.capabilities
  , formats := d.formats
  , present_modes := d.present_modes }

/-- The loop body of VulkanState.find_queue_families in state.rs: for each
queue family, in index order, overwrite graphics_family when the family
has the GRAPHICS flag, overwrite present_family when the surface-support
query holds, and break as soon as the indices are complete. -/
def find_queue_families_loop : List QueueFamily → Nat → QueueFamilyIndices → QueueFamilyIndices
  | [], _, indices => indices
  | qf :: rest, i, indices =>
    let indices1 :=
      if qf.graphics then { indices with graphics_family := some i } else indices
    let indices2 :=
      if qf.present_support then { indices1 with present_family := some i } else indices1
    if indices2.is_complete then indices2
    else find_queue_families_loop rest (i + 1) indices2

/-- VulkanState.find_queue_families from state.rs. -/
def find_queue_families (d : PhysDevice) : QueueFamilyIndices :=
  find_queue_families_loop d.queue_families 0 { graphics_family := none, present_family := none }

/-- VulkanState.check_physical_device_extension_support from state.rs:
every required device extension must appear, by exact name match, among
the device-enumerated extension names. -/
def check_physical_device_extension_support (d : PhysDevice) : Bool :=
  DEVICE_EXTENSIONS.all fun required =>
    d.extension_names.any fun e => e == required

/-- The swap_chain_adequate value computed inside
VulkanState.is_physical_device_suitable in state.rs. -/
def swap_chain_adequate (details : SwapChainSupportDetails) : Bool :=
  !details.formats.isEmpty && !details.present_modes.isEmpty

/-- VulkanState.is_physical_device_suitable from state.rs, with its three
short-circuited checks in source order. -/
def is_physical_device_suitable (d : PhysDevice) : Bool :=
  let indices := find_queue_families d
  if indices.is_complete = false then false
  else if check_physical_device_extension_support d = false then false
  else
    let swap_chain_details := query_swap_chain_support d
    swap_chain_adequate swap_chain_details

/-- VulkanState.pick_physical_device from state.rs: return the first
enumerated device that is suitable; none models the panic when no device
passes. -/
def pick_physical_device : List PhysDevice → Option PhysDevice
  | [] => none
  | d :: rest =>
    if is_physical_device_suitable d then some d
    else pick_physical_device rest

/-- Helper for vec_dedup carrying the previous kept element. -/
def vec_dedup_go : Nat → List Nat → List Nat
  | _, [] => []
  | prev, b :: rest =>
    if b = prev then vec_dedup_go prev rest
    else b :: vec_dedup_go b rest

/-- Rust Vec::dedup as used in VulkanState.create_logical_device in
state.rs: remove consecutive repeated elements, keeping the first of
each run. -/
def vec_dedup : List Nat → List Nat
  | [] => []
  | a :: rest => a :: vec_dedup_go a rest

/-- One vk::DeviceQueueCreateInfo as built in
VulkanState.create_logical_device in state.rs: a queue-family index and
the priority list (whose length is the number of queues requested). -/
structure DeviceQueueCreateInfo where
  queue_family_index : Nat
  queue_priorities : List Rat
deriving DecidableEq

/-- Device.get_device_queue: a queue handle is identified by its family
index and its slot within the family. -/
def get_device_queue (family_index : Nat) (slot : Nat) : Nat × Nat :=
  (family_index, slot)

/-- VulkanState.create_logical_device from state.rs: resolve the queue
family indices (unwrap panics, modelled as none, when either is unset),
dedup the two indices, build one queue-create info per remaining index
with priority list of 1.0, and fetch both queue handles at slot 0. -/
def create_logical_device (d : PhysDevice) :
    Option (List DeviceQueueCreateInfo × (Nat × Nat) × (Nat × Nat)) :=
  let indices := find_queue_families d
  match indices.graphics_family, indices.present_family with
  | some graphics_index, some present_index =>
    let vec := vec_dedup [graphics_index, present_index]
    let queue_priorities : List Rat := [1]
    let queue_create_infos : List DeviceQueueCreateInfo :=
      vec.map fun family_index =>
        { queue_family_index := family_index, queue_priorities := queue_priorities }
    let graphics_queue := get_device_queue graphics_index 0
    let present_queue := get_device_queue present_index 0
    some (queue_create_infos, graphics_queue, present_queue)
  | _, _ => none

/-- VulkanState.check_validation_layers from state.rs: every requested
validation layer must appear, by exact name match, among the layers the
driver enumerates. -/
def check_validation_layers (available_layers : List String) : Bool :=
  VALIDATION_LAYERS.all fun required_layer =>
    available_layers.any fun layer => layer == required_layer

/-- Severity bitmask of vk::DebugUtilsMessageSeverityFlagsEXT, one field
per flag the program mentions. -/
structure SeverityFlags where
  verbose : Bool
  info : Bool
  warning : Bool
  error : Bool
deriving DecidableEq

/-- Type bitmask of vk::DebugUtilsMessageTypeFlagsEXT, one field per flag
the program mentions. -/
structure TypeFlags where
  general : Bool
  validation : Bool
  performance : Bool
deriving DecidableEq

/-- Identifier of a callback function the program can install. -/
inductive CallbackId
  | vulkanDebugCallback
deriving DecidableEq

/-- The vk::DebugUtilsMessengerCreateInfoEXT fields the program sets. -/
structure DebugUtilsMessengerCreateInfo where
  message_severity : SeverityFlags
  message_type : TypeFlags
  pfn_user_callback : Option CallbackId
deriving DecidableEq

/-- The debug_messenger_create_info macro from state.rs: severity mask
VERBOSE, WARNING and ERROR (the INFO bit is not set in the source), type
mask GENERAL, VALIDATION and PERFORMANCE, and the debug callback. -/
def debug_messenger_create_info : DebugUtilsMessengerCreateInfo :=
  { message_severity :=
      { verbose := true, info := false, warning := true, error := true }
  , message_type := { general := true, validation := true, performance := true }
  , pfn_user_callback := some CallbackId.vulkanDebugCallback }

/-- Log levels of the tracing macros used by the callback. -/
inductive LogLevel
  | logError
  | logWarn
  | logInfo
deriving DecidableEq

/-- The vulkan_debug_callback function from state.rs: pick a log level by
testing the severity bits, ERROR first, then WARNING, then the
fine-grained INFO bit, with a catch-all for VERBOSE and anything else;
always return vk::FALSE (continue), never aborting. The returned pair is
the chosen level and the returned Bool32. -/
def vulkan_debug_callback (message_severity : SeverityFlags)
    (_message_type : TypeFlags) (_message : String) : LogLevel × Bool :=
  let level :=
    if message_severity.error then LogLevel.logError
    else if message_severity.warning then LogLevel.logWarn
    else if message_severity.info then LogLevel.logInfo
    else LogLevel.logInfo
  (level, false)

/-- Native driver calls whose occurrence and order the claims are about. -/
inductive NativeCall
  | enumerateInstanceLayerProperties
  | createInstance
  | createSurface
  | createDevice
  | createDebugUtilsMessenger
  | destroyDevice
  | destroyDebugMessenger
  | destroySurface
  | destroyInstance
deriving DecidableEq

/-- What the program knows about the window: the platform-required
presentation extension names. -/
structure WindowInfo where
  platform_required_extensions : List String
deriving DecidableEq

/-- VulkanState.get_required_extensions from state.rs: the platform
extensions, plus the debug-utils extension when validation is enabled. -/
def get_required_extensions (enable_validation_layers : Bool)
    (window : WindowInfo) : List String :=
  window.platform_required_extensions ++
    (if enable_validation_layers then ["VK_EXT_debug_utils"] else [])

/-- The vk::InstanceCreateInfo fields the program sets, together with the
debug create info pushed onto its pNext chain when validation is on. -/
structure InstanceCreateInfo where
  enabled_layer_names : List String
  enabled_extension_names : List String
  pushed_debug_create_info : Option DebugUtilsMessengerCreateInfo
deriving DecidableEq

/-- VulkanState.create_instance from state.rs: when validation is enabled,
enumerate the driver layers and panic (modelled as none) before any
create-instance call when a requested layer is missing; otherwise build
the create info, attach the debug create info to it exactly when
validation is enabled, and create the instance. Returns the trace of
native calls and, on success, the create info describing the instance. -/
def create_instance (enable_validation_layers : Bool)
    (available_layers : List String) (window : WindowInfo) :
    List NativeCall × Option InstanceCreateInfo :=
  if enable_validation_layers && !check_validation_layers available_layers then
    ([NativeCall.enumerateInstanceLayerProperties], none)
  else
    let extension_names := get_required_extensions enable_validation_layers window
    let layer_name_ptrs :=
      if enable_validation_layers then VALIDATION_LAYERS else []
    let base : InstanceCreateInfo :=
      { enabled_layer_names := layer_name_ptrs
      , enabled_extension_names := extension_names
      , pushed_debug_create_info := none }
    let create_info :=
      if enable_validation_layers then
        { base with pushed_debug_create_info := some debug_messenger_create_info }
      else base
    ((if enable_validation_layers then [NativeCall.enumerateInstanceLayerProperties] else [])
        ++ [NativeCall.createInstance],
     some create_info)

/-- The VulkanState struct from state.rs. Handles with no observable
structure are Unit; the instance is represented by the create info that
produced it; a queue handle is its (family, slot) pair; the messenger is
represented by the create info it was created from. -/
structure VulkanState where
  entry : Unit
  vk_instance : InstanceCreateInfo
  physical_device : PhysDevice
  logical_device : Unit
  graphics_queue : Nat × Nat
  present_queue : Nat × Nat
  surface : Unit
  surface_loader : Unit
  debug_utils_loader : Option Unit
  debug_messenger : Option DebugUtilsMessengerCreateInfo
deriving DecidableEq

/-- VulkanState.setup_debug_messenger from state.rs: build the same debug
create info again, create the messenger, and store loader and messenger
in the state. -/
def setup_debug_messenger (s : VulkanState) : VulkanState :=
  let create_info := debug_messenger_create_info
  { s with debug_utils_loader := some (), debug_messenger := some create_info }

/-- The driver environment the bootstrap queries: the enumerable instance
layers and the enumerable physical devices. -/
structure Driver where
  available_layers : List String
  physical_devices : List PhysDevice
deriving DecidableEq

/-- VulkanState.new from state.rs: create the instance, the surface, pick
a physical device, create the logical device and its two queues, then,
iff validation is enabled, set up the debug messenger. Returns the trace
of native calls and, unless a stage panicked (modelled as none), the
resulting state. -/
def new (enable_validation_layers : Bool) (drv : Driver) (window : WindowInfo) :
    List NativeCall × Option VulkanState :=
  let r1 := create_instance enable_validation_layers drv.available_layers window
  match r1.2 with
  | none => (r1.1, none)
  | some inst =>
    let tr1 := r1.1 ++ [NativeCall.createSurface]
    match pick_physical_device drv.physical_devices with
    | none => (tr1, none)
    | some physical_device =>
      match create_logical_device physical_device with
      | none => (tr1, none)
      | some (_, graphics_queue, present_queue) =>
        let tr2 := tr1 ++ [NativeCall.createDevice]
        let ret : VulkanState :=
          { entry := ()
          , vk_instance := inst
          , physical_device := physical_device
          , logical_device := ()
          , graphics_queue := graphics_queue
          , present_queue := present_queue
          , surface := ()
          , surface_loader := ()
          , debug_utils_loader := none
          , debug_messenger := none }
        if enable_validation_layers then
          (tr2 ++ [NativeCall.createDebugUtilsMessenger], some (setup_debug_messenger ret))
        else
          (tr2, some ret)

/-- VulkanState.destroy from state.rs: destroy the logical device, then,
when ENABLE_VALIDATION_LAYERS, unwrap the loader and messenger (none
models the unwrap panic) and destroy the messenger, then destroy the
surface and the instance. Returns the ordered trace of native destroy
calls, or none when an unwrap panics. -/
def destroy (enable_validation_layers : Bool) (s : VulkanState) :
    Option (List NativeCall) :=
  if enable_validation_layers then
    match s.debug_utils_loader, s.debug_messenger with
    | some _, some _ =>
      some [NativeCall.destroyDevice, NativeCall.destroyDebugMessenger,
            NativeCall.destroySurface, NativeCall.destroyInstance]
    | _, _ => none
  else
    some [NativeCall.destroyDevice, NativeCall.destroySurface, NativeCall.destroyInstance]

/-- A device passing all three suitability checks: one queue family with
graphics and present support, the swapchain extension, and non-empty
format and present-mode lists. -/
def good_device : PhysDevice :=
  { queue_families := [{ graphics := true, present_support := true }]
  , extension_names := ["VK_KHR_swapchain"]
  , capabilities := 0
  , formats := [0]
  , present_modes := [0] }

/-- A device failing the extension check (no extensions at all). -/
def bad_device : PhysDevice :=
  { queue_families := [{ graphics := true, present_support := true }]
  , extension_names := []
  , capabilities := 0
  , formats := [0]
  , present_modes := [0] }

/-- A device whose first two queue families are graphics-only and whose
third is present-only, exhibiting the overwrite in the family scan. -/
def overwrite_device : PhysDevice :=
  { queue_families :=
      [ { graphics := true, present_support := false }
      , { graphics := true, present_support := false }
      , { graphics := false, present_support := true } ]
  , extension_names := ["VK_KHR_swapchain"]
  , capabilities := 0
  , formats := [0]
  , present_modes := [0] }

/-- A driver exposing the requested validation layer and one good device. -/
def good_driver : Driver :=
  { available_layers := ["VK_LAYER_KHRONOS_validation"]
  , physical_devices := [good_device] }

/-- A window requiring one platform presentation extension. -/
def demo_window : WindowInfo :=
  { platform_required_extensions := ["VK_KHR_surface"] }

/-- Number of queue families the scan actually visits, following the
amended reading of the spec: visiting stops with the family at which both
a graphics-capable and a present-capable family have been seen, and
otherwise runs to the end. The two Bool arguments carry whether a
graphics (resp. present) family has been seen so far. -/
def scan_stop_len : List QueueFamily → Bool → Bool → Nat
  | [], _, _ => 0
  | qf :: rest, g, p =>
    let g1 := g || qf.graphics
    let p1 := p || qf.present_support
    if g1 && p1 then 1 else scan_stop_len rest g1 p1 + 1

/-- Index, relative to a running offset, of the last element of the list
satisfying f, defaulting to the accumulator. -/
def last_index_where (f : QueueFamily → Bool) : List QueueFamily → Nat → Option Nat → Option Nat
  | [], _, acc => acc
  | qf :: rest, i, acc =>
    last_index_where f rest (i + 1) (if f qf then some i else acc)

/-- The prefix of the queue-family list the scan visits. -/
def scanned_families (l : List QueueFamily) : List QueueFamily :=
  l.take (scan_stop_len l false false)

/-- Characterisation of the scan following the amended claim: within the
visited prefix, graphics_family is the LAST graphics-capable index and
present_family the LAST present-capable index (the source overwrites the
index on every qualifying family until both are set). -/
def find_queue_families_scan_spec (l : List QueueFamily) : QueueFamilyIndices :=
  { graphics_family :=
      last_index_where (fun qf => qf.graphics) (scanned_families l) 0 none
  , present_family :=
      last_index_where (fun qf => qf.present_support) (scanned_families l) 0 none }

/-- A fully initialised state with validation on: loader and messenger
both present, as the constructor produces them. -/
def demo_state : VulkanState :=
  { entry := ()
  , vk_instance :=
      { enabled_layer_names := ["VK_LAYER_KHRONOS_validation"]
      , enabled_extension_names := ["VK_KHR_surface", "VK_EXT_debug_utils"]
      , pushed_debug_create_info := some debug_messenger_create_info }
  , physical_device := good_device
  , logical_device := ()
  , graphics_queue := (0, 0)
  , present_queue := (0, 0)
  , surface := ()
  , surface_loader := ()
  , debug_utils_loader := some ()
  , debug_messenger := some debug_messenger_create_info }

/-- Suitability unfolded into its three checks. -/
lemma is_physical_device_suitable_iff (d : PhysDevice) :
    is_physical_device_suitable d = true ↔
      ((find_queue_families d).is_complete = true ∧
       check_physical_device_extension_support d = true ∧
       swap_chain_adequate (query_swap_chain_support d) = true) := by
  simp only [is_physical_device_suitable]
  cases h1 : (find_queue_families d).is_complete <;>
    cases h2 : check_physical_device_extension_support d <;>
      simp [h1, h2]

/-- C1: pick_physical_device returns the first device, in enumeration
order, passing all three suitability checks (queue-family completeness,
extension support, swapchain adequacy): when every device before d fails
suitability and d passes all three checks, the devices before d are
skipped and d is returned; and moving the passing device d to the front
of the list makes d the result. -/
theorem pick_physical_device_first (pre post : List PhysDevice) (d : PhysDevice)
    (hpre : ∀ e ∈ pre, is_physical_device_suitable e = false)
    (h1 : (find_queue_families d).is_complete = true)
    (h2 : check_physical_device_extension_support d = true)
    (h3 : swap_chain_adequate (query_swap_chain_support d) = true) :
    pick_physical_device (pre ++ d :: post) = some d ∧
    pick_physical_device (d :: (pre ++ post)) = some d := by
  have hd : is_physical_device_suitable d = true :=
    (is_physical_device_suitable_iff d).mpr ⟨h1, h2, h3⟩
  constructor
  · induction pre with
    | nil => simp [pick_physical_device, hd]
    | cons e rest ih =>
      have he := hpre e (by simp)
      have hrest : ∀ x ∈ rest, is_physical_device_suitable x = false :=
        fun x hx => hpre x (by simp [hx])
      simpa [pick_physical_device, he] using ih hrest
  · simp [pick_physical_device, hd]

/-- Witness for pick_physical_device_first: with an unsuitable device
before it, the good device is still picked, and it is picked when moved
to the front. -/
theorem pick_physical_device_first_witness :
    pick_physical_device ([bad_device] ++ good_device :: []) = some good_device ∧
    pick_physical_device (good_device :: ([bad_device] ++ [])) = some good_device :=
  pick_physical_device_first [bad_device] [] good_device
    (by decide) (by decide) (by decide) (by decide)

/-- C5: swapchain adequacy, as computed in the suitability check, holds
iff both the format list and the present-mode list are non-empty, and
fails on the three boundary combinations where either list is empty. -/
theorem swap_chain_adequate_iff :
    (∀ (caps : Nat) (formats present_modes : List Nat),
        swap_chain_adequate
            { capabilities := caps, formats := formats, present_modes := present_modes } = true ↔
          formats ≠ [] ∧ present_modes ≠ []) ∧
    (∀ (caps : Nat) (present_modes : List Nat),
        swap_chain_adequate
          { capabilities := caps, formats := [], present_modes := present_modes } = false) ∧
    (∀ (caps : Nat) (formats : List Nat),
        swap_chain_adequate
          { capabilities := caps, formats := formats, present_modes := [] } = false) ∧
    swap_chain_adequate { capabilities := 0, formats := [], present_modes := [] } = false := by
  refine ⟨?_, ?_, ?_, ?_⟩
  · intro caps formats present_modes
    cases formats <;> cases present_modes <;> simp [swap_chain_adequate]
  · intro caps present_modes
    simp [swap_chain_adequate]
  · intro caps formats
    simp [swap_chain_adequate]
  · rfl

/-- Witness for swap_chain_adequate_iff at a concrete non-empty pair. -/
theorem swap_chain_adequate_iff_witness :
    swap_chain_adequate { capabilities := 0, formats := [0], present_modes := [0] } = true :=
  (swap_chain_adequate_iff.1 0 [0] [0]).mpr (by decide)

/-- C8: the debug callback logs error severity at the error level,
warning at the warn level, info and verbose severities both at the info
level, and for every severity, type and message it returns FALSE, never
escalating a message to a failure. -/
theorem vulkan_debug_callback_levels :
    (∀ (mt : TypeFlags) (m : String),
        (vulkan_debug_callback
            { verbose := false, info := false, warning := false, error := true } mt m).1 =
          LogLevel.logError) ∧
    (∀ (mt : TypeFlags) (m : String),
        (vulkan_debug_callback
            { verbose := false, info := false, warning := true, error := false } mt m).1 =
          LogLevel.logWarn) ∧
    (∀ (mt : TypeFlags) (m : String),
        (vulkan_debug_callback
            { verbose := false, info := true, warning := false, error := false } mt m).1 =
          LogLevel.logInfo) ∧
    (∀ (mt : TypeFlags) (m : String),
        (vulkan_debug_callback
            { verbose := true, info := false, warning := false, error := false } mt m).1 =
          LogLevel.logInfo) ∧
    (∀ (s : SeverityFlags) (mt : TypeFlags) (m : String),
        (vulkan_debug_callback s mt m).2 = false) :=
  ⟨fun _ _ => rfl, fun _ _ => rfl, fun _ _ => rfl, fun _ _ => rfl, fun _ _ _ => rfl⟩

/-- The scan loop computes, over the visited prefix, the last qualifying
index for each capability, starting from the accumulated indices. -/
lemma find_queue_families_loop_spec :
    ∀ (l : List QueueFamily) (i : Nat) (g p : Option Nat),
      (g.isSome && p.isSome) = false →
      find_queue_families_loop l i { graphics_family := g, present_family := p } =
        { graphics_family :=
            last_index_where (fun qf => qf.graphics)
              (l.take (scan_stop_len l g.isSome p.isSome)) i g
        , present_family :=
            last_index_where (fun qf => qf.present_support)
              (l.take (scan_stop_len l g.isSome p.isSome)) i p } := by
  intro l
  induction l with
  | nil =>
    intro i g p _
    simp [find_queue_families_loop, scan_stop_len, last_index_where]
  | cons qf rest ih =>
    intro i g p h
    cases hg : qf.graphics <;> cases hp : qf.present_support <;>
      cases hgs : g.isSome <;> cases hps : p.isSome <;>
        simp_all [find_queue_families_loop, scan_stop_len, last_index_where,
                  QueueFamilyIndices.is_complete]

/-- C6 counterexample: on a device whose families are graphics-only,
graphics-only, present-only, the scan records graphics_family = index 1,
not the first (lowest) graphics-capable index, which is 0. -/
theorem find_queue_families_overwrites_first_index :
    (find_queue_families overwrite_device).graphics_family = some 1 ∧
    (find_queue_families overwrite_device).graphics_family ≠ some 0 ∧
    List.findIdx (fun qf => qf.graphics) overwrite_device.queue_families = 0 := by
  decide

/-- C6 amended: the scan visits queue families in index order, stopping
with the family at which both indices become set, and records as
graphics_family the last visited graphics-capable index and as
present_family the last visited present-capable index. -/
theorem find_queue_families_records_last (d : PhysDevice) :
    find_queue_families d = find_queue_families_scan_spec d.queue_families := by
  have h := find_queue_families_loop_spec d.queue_families 0 none none (by simp)
  simpa [find_queue_families, find_queue_families_scan_spec, scanned_families] using h

/-- Turning a cons-level existence hypothesis into one for the tail when
the head does not qualify. -/
lemma exists_mem_tail_or_isSome {l : List QueueFamily} {qf : QueueFamily}
    {f : QueueFamily → Bool} {o : Option Nat}
    (h : (∃ x ∈ qf :: l, f x = true) ∨ o.isSome = true) (hqf : f qf = false) :
    (∃ x ∈ l, f x = true) ∨ o.isSome = true := by
  rcases h with ⟨x, hx, hxf⟩ | ho
  · rcases List.mem_cons.mp hx with rfl | hxr
    · rw [hqf] at hxf
      exact absurd hxf (by simp)
    · exact Or.inl ⟨x, hxr, hxf⟩
  · exact Or.inr ho

/-- The scan loop ends complete whenever each capability is present in
the remaining list or already recorded. -/
lemma find_queue_families_loop_complete :
    ∀ (l : List QueueFamily) (i : Nat) (ind : QueueFamilyIndices),
      ((∃ qf ∈ l, qf.graphics = true) ∨ ind.graphics_family.isSome = true) →
      ((∃ qf ∈ l, qf.present_support = true) ∨ ind.present_family.isSome = true) →
      (find_queue_families_loop l i ind).is_complete = true := by
  intro l
  induction l with
  | nil =>
    intro i ind h1 h2
    simp only [List.not_mem_nil, false_and, exists_false, false_or] at h1 h2
    simp [find_queue_families_loop, QueueFamilyIndices.is_complete, h1, h2]
  | cons qf rest ih =>
    intro i ind h1 h2
    obtain ⟨g, p⟩ := ind
    cases hg : qf.graphics <;> cases hp : qf.present_support <;>
      simp only [find_queue_families_loop, hg, hp, if_true, if_false,
                 Bool.false_eq_true, Bool.true_eq_false, ite_true, ite_false] <;>
      split
    case false.false.isTrue hc => exact hc
    case false.false.isFalse hc =>
      exact ih (i + 1) ⟨g, p⟩ (exists_mem_tail_or_isSome h1 hg) (exists_mem_tail_or_isSome h2 hp)
    case false.true.isTrue hc => exact hc
    case false.true.isFalse hc =>
      exact ih (i + 1) ⟨g, some i⟩ (exists_mem_tail_or_isSome h1 hg) (Or.inr (by simp))
    case true.false.isTrue hc => exact hc
    case true.false.isFalse hc =>
      exact ih (i + 1) ⟨some i, p⟩ (Or.inr (by simp)) (exists_mem_tail_or_isSome h2 hp)
    case true.true.isTrue hc => exact hc
    case true.true.isFalse hc =>
      exact ih (i + 1) ⟨some i, some i⟩ (Or.inr (by simp)) (Or.inr (by simp))

/-- C7: is_complete holds iff both family indices are set, and on any
device whose family list contains at least one graphics-capable and at
least one present-capable family, the scan ends complete. -/
theorem is_complete_iff_and_scan_complete (q : QueueFamilyIndices) (d : PhysDevice)
    (hg : ∃ qf ∈ d.queue_families, qf.graphics = true)
    (hp : ∃ qf ∈ d.queue_families, qf.present_support = true) :
    (q.is_complete = true ↔
      (q.graphics_family.isSome = true ∧ q.present_family.isSome = true)) ∧
    (find_queue_families d).is_complete = true := by
  constructor
  · simp [QueueFamilyIndices.is_complete]
  · exact find_queue_families_loop_complete d.queue_families 0
      { graphics_family := none, present_family := none } (Or.inl hg) (Or.inl hp)

/-- Witness for is_complete_iff_and_scan_complete on the good device. -/
theorem is_complete_iff_and_scan_complete_witness :
    (QueueFamilyIndices.is_complete { graphics_family := none, present_family := none } = true ↔
      ((none : Option Nat).isSome = true ∧ (none : Option Nat).isSome = true)) ∧
    (find_queue_families good_device).is_complete = true :=
  is_complete_iff_and_scan_complete
    { graphics_family := none, present_family := none } good_device
    (by decide) (by decide)

/-- Rust Vec::dedup on a two-element vector keeps one element iff the two
coincide. -/
lemma vec_dedup_pair (g p : Nat) :
    vec_dedup [g, p] = if g = p then [g] else [g, p] := by
  by_cases h : g = p
  · subst h
    simp [vec_dedup, vec_dedup_go]
  · have h2 : ¬(p = g) := fun hh => h hh.symm
    simp [vec_dedup, vec_dedup_go, h, h2]

/-- C3: with resolved indices g and p, create_logical_device produces one
queue-create request when g = p and exactly two otherwise, each with
priority list 1.0 (hence one queue per family), and retrieves both queue
handles at slot 0 of their family, the same underlying queue when the
indices coincide. -/
theorem create_logical_device_queues (d : PhysDevice) (g p : Nat)
    (hg : (find_queue_families d).graphics_family = some g)
    (hp : (find_queue_families d).present_family = some p) :
    create_logical_device d =
      some ((if g = p then
               [{ queue_family_index := g, queue_priorities := [1] }]
             else
               [{ queue_family_index := g, queue_priorities := [1] },
                { queue_family_index := p, queue_priorities := [1] }]),
            get_device_queue g 0, get_device_queue p 0) ∧
    (g = p → get_device_queue g 0 = get_device_queue p 0) := by
  constructor
  · simp only [create_logical_device, hg, hp]
    rw [vec_dedup_pair]
    by_cases h : g = p <;> simp [h, get_device_queue]
  · intro h
    rw [h]

/-- Witness for create_logical_device_queues: on the good device both
indices resolve to 0, one request is issued and the two handles coincide. -/
theorem create_logical_device_queues_witness :
    create_logical_device good_device =
      some ([{ queue_family_index := 0, queue_priorities := ([1] : List Rat) }],
            get_device_queue 0 0, get_device_queue 0 0) := by
  have h := (create_logical_device_queues good_device 0 0 (by decide) (by decide)).1
  simpa using h

/-- C2: on any state satisfying the constructor invariant that loader and
messenger presence match the validation flag, destroy performs exactly
the ordered native calls: device, then the messenger when present, then
surface, then instance. -/
theorem destroy_ordered_calls (ev : Bool) (s : VulkanState)
    (hl : s.debug_utils_loader.isSome = ev)
    (hm : s.debug_messenger.isSome = ev) :
    destroy ev s =
      some ([NativeCall.destroyDevice] ++
            (if s.debug_messenger.isSome then [NativeCall.destroyDebugMessenger] else []) ++
            [NativeCall.destroySurface, NativeCall.destroyInstance]) := by
  cases ev with
  | false =>
    rcases hme : s.debug_messenger with _ | m
    · simp [destroy, hme]
    · rw [hme] at hm
      simp at hm
  | true =>
    rcases hlo : s.debug_utils_loader with _ | u
    · rw [hlo] at hl
      simp at hl
    · rcases hme : s.debug_messenger with _ | m
      · rw [hme] at hm
        simp at hm
      · simp [destroy, hlo, hme]

/-- Witness for destroy_ordered_calls on a state with validation on. -/
theorem destroy_ordered_calls_witness :
    destroy true demo_state =
      some ([NativeCall.destroyDevice] ++
            (if demo_state.debug_messenger.isSome then [NativeCall.destroyDebugMessenger] else []) ++
            [NativeCall.destroySurface, NativeCall.destroyInstance]) :=
  destroy_ordered_calls true demo_state (by decide) (by decide)

/-- C4: with validation enabled, when some requested validation layer has
no exact name match among the driver-enumerated layers, create_instance
fails (none) and its native-call trace contains no createInstance call. -/
theorem create_instance_fails_before_creation (available_layers : List String) (w : WindowInfo)
    (h : ∃ required ∈ VALIDATION_LAYERS, ∀ layer ∈ available_layers, layer ≠ required) :
    (create_instance true available_layers w).2 = none ∧
    NativeCall.createInstance ∉ (create_instance true available_layers w).1 := by
  have hc : check_validation_layers available_layers = false := by
    obtain ⟨req, hreq, hmiss⟩ := h
    cases hcv : check_validation_layers available_layers with
    | false => rfl
    | true =>
      exfalso
      have hall := (List.all_eq_true.mp hcv) req hreq
      obtain ⟨layer, hlay, hbeq⟩ := List.any_eq_true.mp hall
      exact hmiss layer hlay (by simpa using hbeq)
  refine ⟨?_, ?_⟩ <;> simp [create_instance, hc]

/-- Witness for create_instance_fails_before_creation: an empty layer
enumeration misses the requested layer. -/
theorem create_instance_fails_before_creation_witness :
    (create_instance true [] demo_window).2 = none ∧
    NativeCall.createInstance ∉ (create_instance true [] demo_window).1 :=
  create_instance_fails_before_creation [] demo_window
    ⟨"VK_LAYER_KHRONOS_validation", by simp [VALIDATION_LAYERS], by simp⟩

/-- C9 counterexample: the diagnostics configuration built by the source
does not set the info severity bit, so its severity mask is not
the claimed {verbose, info, warning, error}. -/
theorem debug_messenger_severity_lacks_info_bit :
    debug_messenger_create_info.message_severity.info = false ∧
    debug_messenger_create_info.message_severity ≠
      { verbose := true, info := true, warning := true, error := true } := by
  decide

/-- C9 amended: the diagnostics configuration has severity mask
{verbose, warning, error} (info is absent), category mask
{general, validation, performance} and the debug callback; with
validation enabled it is attached to the instance-create request, and a
separate messenger created from the same configuration appears in the
state, its native creation call coming after createInstance. -/
theorem debug_messenger_config_attached :
    debug_messenger_create_info =
      { message_severity := { verbose := true, info := false, warning := true, error := true }
      , message_type := { general := true, validation := true, performance := true }
      , pfn_user_callback := some CallbackId.vulkanDebugCallback } ∧
    (∀ (available_layers : List String) (w : WindowInfo),
        check_validation_layers available_layers = true →
        (create_instance true available_layers w).2 =
          some { enabled_layer_names := VALIDATION_LAYERS
               , enabled_extension_names := get_required_extensions true w
               , pushed_debug_create_info := some debug_messenger_create_info }) ∧
    (∀ (drv : Driver) (w : WindowInfo),
        ((new true drv w).2).isSome = true →
        ((new true drv w).2).map (fun s => s.debug_messenger) =
            some (some debug_messenger_create_info) ∧
          (new true drv w).1 =
            [NativeCall.enumerateInstanceLayerProperties, NativeCall.createInstance,
             NativeCall.createSurface, NativeCall.createDevice,
             NativeCall.createDebugUtilsMessenger]) := by
  refine ⟨rfl, ?_, ?_⟩
  · intro available_layers w hc
    simp [create_instance, hc]
  · intro drv w hs
    cases hc : check_validation_layers drv.available_layers with
    | false => simp [new, create_instance, hc] at hs
    | true =>
      rcases hpick : pick_physical_device drv.physical_devices with _ | pd
      · simp [new, create_instance, hc, hpick] at hs
      · rcases hcld : create_logical_device pd with _ | ⟨infos, gq, pq⟩
        · simp [new, create_instance, hc, hpick, hcld] at hs
        · simp [new, create_instance, hc, hpick, hcld, setup_debug_messenger]

/-- Witness for debug_messenger_config_attached on the good driver. -/
theorem debug_messenger_config_attached_witness :
    ((new true good_driver demo_window).2).map (fun s => s.debug_messenger) =
        some (some debug_messenger_create_info) ∧
      (new true good_driver demo_window).1 =
        [NativeCall.enumerateInstanceLayerProperties, NativeCall.createInstance,
         NativeCall.createSurface, NativeCall.createDevice,
         NativeCall.createDebugUtilsMessenger] :=
  debug_messenger_config_attached.2.2 good_driver demo_window (by decide)

/-- C10: every state the constructor returns has loader and messenger
present exactly when validation is enabled, and on such a state the
unwraps in destroy cannot panic: destroy returns a trace. -/
theorem new_debug_fields_match_validation (ev : Bool) (drv : Driver) (w : WindowInfo)
    (s : VulkanState) (h : (new ev drv w).2 = some s) :
    (s.debug_utils_loader.isSome = ev ∧ s.debug_messenger.isSome = ev) ∧
    (destroy ev s).isSome = true := by
  rcases hci : (create_instance ev drv.available_layers w).2 with _ | inst
  · simp [new, hci] at h
  · rcases hpick : pick_physical_device drv.physical_devices with _ | pd
    · simp [new, hci, hpick] at h
    · rcases hcld : create_logical_device pd with _ | ⟨infos, gq, pq⟩
      · simp [new, hci, hpick, hcld] at h
      · cases ev with
        | false =>
          simp only [new, hci, hpick, hcld, Bool.false_eq_true, if_false,
                     Option.some.injEq] at h
          subst h
          simp [destroy]
        | true =>
          simp only [new, hci, hpick, hcld, if_true, Option.some.injEq] at h
          subst h
          simp [destroy, setup_debug_messenger]

/-- Witness for new_debug_fields_match_validation: the good driver with
validation on yields demo_state, whose teardown succeeds. -/
theorem new_debug_fields_match_validation_witness :
    (demo_state.debug_utils_loader.isSome = true ∧
     demo_state.debug_messenger.isSome = true) ∧
    (destroy true demo_state).isSome = true :=
  new_debug_fields_match_validation true good_driver demo_window demo_state (by decide)

end Vulkan
